import Mathlib

/-!
Verification of the EcoMind forest-monitoring dashboard.

The frontend definitions below are shallow embeddings of the TypeScript code
under `src/frontend/src` (the Vercel-updated `useAPI.ts` fetch transforms, the
page/component render gates, and the location-selector boundary check).  The
backend synthesizer (the Python API) is not part of the inspected sources, so
the definitions in the `Backend` section are modelled from the specification,
as marked in their doc comments.
-/

namespace EcoMind

/-! ## JavaScript primitives used by the frontend code -/

/-- JS numeric defaulting `x || d`: a missing field or the number `0`
(falsy values) fall back to the default `d`. -/
def jsOrNum (x : Option ℚ) (d : ℚ) : ℚ :=
  match x with
  | none => d
  | some v => if v = 0 then d else v

/-- JS `Math.round`: round half toward positive infinity,
`Math.round x = ⌊x + 1/2⌋`. -/
def jsRound (x : ℚ) : ℤ := ⌊x + 1/2⌋

/-! ## Payload shapes of the JSON API responses (frontend view) -/

/-- The `tree_distribution` object of the `/api/health` response; every field
may be absent in a malformed payload. -/
structure TreeDistPayload where
  healthy : Option ℚ
  moderate : Option ℚ
  stressed : Option ℚ
  unhealthy : Option ℚ
  total : Option ℚ

/-- The empty object `{}` used as the fallback in
`const dist = data.tree_distribution || {}`. -/
def emptyDist : TreeDistPayload := ⟨none, none, none, none, none⟩

/-- `data.tree_distribution || {}`. -/
def distOf (p : Option TreeDistPayload) : TreeDistPayload := p.getD emptyDist

/-- The `/api/health` response body as consumed by the frontend. -/
structure HealthApiPayload where
  health_score : Option ℚ
  tree_distribution : Option TreeDistPayload
  carbon_sequestration : Option ℚ
  timestamp : Option String

/-- The `/api/carbon` response body as consumed by the frontend. -/
structure CarbonApiPayload where
  annual_sequestration_tons : Option ℚ
  co2_equivalent_offset : Option ℚ
  trees_monitored : Option ℚ
  location : String

/-- One element of the `trends` array of the `/api/trends` response
(`date` is modelled as a day number). -/
structure TrendItem where
  date : ℕ
  health_score : ℚ
  carbon_sequestration : Option ℚ

/-! ## Result records built by `useAPI.ts` (Vercel version, embedded in the
frontend sources) -/

/-- `HealthDistribution` as returned by `fetchHealthDistribution`. -/
structure HealthDistribution where
  healthy : ℚ
  moderate : ℚ
  stressed : ℚ
  unhealthy : ℚ
  total : ℚ
  healthy_percentage : ℤ
  moderate_percentage : ℤ
  stressed_percentage : ℤ
  unhealthy_percentage : ℤ

/-- `NDVIData` as returned by `fetchNDVIData`. -/
structure NDVIData where
  current_average : ℚ
  healthy_percentage : ℤ
  moderate_percentage : ℤ
  stressed_percentage : ℤ
  unhealthy_percentage : ℤ

/-- `OverviewMetrics` as returned by `fetchOverviewMetrics`. -/
structure OverviewMetrics where
  total_trees : ℚ
  forest_coverage_hectares : ℤ
  annual_co2_capture_tons : ℚ
  health_score_percentage : ℚ
  locations_monitored : ℕ

/-- `CarbonData` as returned by `fetchCarbonData` (the `locations` array is
omitted: no inspected claim mentions it). -/
structure CarbonData where
  total_carbon_tons : ℚ
  annual_capture_rate : ℚ
  equivalent_cars_offset : ℤ

/-- `TrendData` as returned by `fetchTrendData`. -/
structure TrendData where
  weeks : List String
  tree_counts : List ℤ
  carbon_capture : List ℚ

/-! ## The fetch transforms of `useAPI.ts` -/

/-- `Math.round(((dist.f || 0) / total) * 100)`, the percentage expression
used for each bucket in `fetchHealthDistribution` and `fetchNDVIData`. -/
def pctOf (bucket : Option ℚ) (total : ℚ) : ℤ :=
  jsRound (jsOrNum bucket 0 / total * 100)

/-- The divisor `const total = dist.total || 1` used by
`fetchHealthDistribution` and `fetchNDVIData`. -/
def healthDivisor (p : Option TreeDistPayload) : ℚ :=
  jsOrNum (distOf p).total 1

/-- Body of `fetchHealthDistribution` after the JSON arrives: transform the
`/api/health` payload into a `HealthDistribution`. -/
def fetchHealthDistributionTransform (data : HealthApiPayload) : HealthDistribution :=
  let dist := distOf data.tree_distribution
  let total := jsOrNum dist.total 1
  { healthy := jsOrNum dist.healthy 0
    moderate := jsOrNum dist.moderate 0
    stressed := jsOrNum dist.stressed 0
    unhealthy := jsOrNum dist.unhealthy 0
    total := total
    healthy_percentage := pctOf dist.healthy total
    moderate_percentage := pctOf dist.moderate total
    stressed_percentage := pctOf dist.stressed total
    unhealthy_percentage := pctOf dist.unhealthy total }

/-- Body of `fetchNDVIData` after the JSON arrives: transform the
`/api/health` payload into `NDVIData`. -/
def fetchNDVIDataTransform (data : HealthApiPayload) : NDVIData :=
  let dist := distOf data.tree_distribution
  let total := jsOrNum dist.total 1
  { current_average := jsOrNum data.health_score 0
    healthy_percentage := pctOf dist.healthy total
    moderate_percentage := pctOf dist.moderate total
    stressed_percentage := pctOf dist.stressed total
    unhealthy_percentage := pctOf dist.unhealthy total }

/-- Body of `fetchOverviewMetrics` after the JSON arrives
(`data.tree_distribution?.total || 0` is optional chaining plus defaulting). -/
def fetchOverviewMetricsTransform (data : HealthApiPayload) : OverviewMetrics :=
  { total_trees := jsOrNum (data.tree_distribution.bind TreeDistPayload.total) 0
    forest_coverage_hectares :=
      jsRound (jsOrNum (data.tree_distribution.bind TreeDistPayload.total) 0 / 100)
    annual_co2_capture_tons := jsOrNum data.carbon_sequestration 0
    health_score_percentage := jsOrNum data.health_score 0
    locations_monitored := 25 }

/-- Body of `fetchCarbonData` after the JSON arrives; note the expression
`Math.round((data.co2_equivalent_offset || 0) / 4.6)`. -/
def fetchCarbonDataTransform (data : CarbonApiPayload) : CarbonData :=
  { total_carbon_tons := jsOrNum data.annual_sequestration_tons 0
    annual_capture_rate := jsOrNum data.annual_sequestration_tons 0
    equivalent_cars_offset := jsRound (jsOrNum data.co2_equivalent_offset 0 / (23 / 5)) }

/-- Body of `fetchTrendData` after the JSON arrives: the three parallel `map`s
over the `trends` array. -/
def fetchTrendDataTransform (trends : List TrendItem) : TrendData :=
  { weeks := trends.map (fun item => toString item.date)
    tree_counts := trends.map (fun item => jsRound (item.health_score * 1000))
    carbon_capture := trends.map (fun item => jsOrNum item.carbon_sequestration 0) }

/-! ## Request-target selection in `useAPI.ts` -/

/-- `location && location !== 'all' ? location : 'Seattle'` (JS string
truthiness: `undefined` and the empty string are falsy). -/
def targetLocationOrSeattle (loc : Option String) : String :=
  match loc with
  | none => "Seattle"
  | some s => if s = "" then "Seattle" else if s = "all" then "Seattle" else s

/-- Location sent by `fetchOverviewMetrics`. -/
def overviewRequestLocation (loc : Option String) : String := targetLocationOrSeattle loc

/-- Location sent by `fetchHealthDistribution`. -/
def healthRequestLocation (loc : Option String) : String := targetLocationOrSeattle loc

/-- Location sent by `fetchNDVIData` (hard-coded in the URL). -/
def ndviRequestLocation : String := "Seattle"

/-- Location sent by `fetchCarbonData` (hard-coded in the URL). -/
def carbonRequestLocation : String := "Seattle"

/-- Location sent by `fetchTrendData` (hard-coded in the URL). -/
def trendRequestLocation : String := "Seattle"

/-- Window sent by `fetchTrendData` (`days=30` in the URL). -/
def trendRequestDays : ℕ := 30

/-! ## Render gates of the page components -/

/-- What a component renders: the loading spinner, the static
failed-to-load panel, or the data-driven content. -/
inductive RenderState (α : Type) where
  | loading
  | failed
  | content (payload : α)

/-- Render gate of `HealthChart`: loading check, then
`if (error || !healthDistribution)` shows the failed panel. -/
def healthChartRender (isLoading : Bool) (error : Option String)
    (healthDistribution : Option HealthDistribution) : RenderState HealthDistribution :=
  if isLoading then .loading
  else
    match error, healthDistribution with
    | none, some d => .content d
    | _, _ => .failed

/-- Render gate of the Health page:
`if (healthError || ndviError || !healthDistribution || !ndviData)` shows the
failed panel. -/
def healthPageRender (healthLoading ndviLoading : Bool)
    (healthError ndviError : Option String)
    (healthDistribution : Option HealthDistribution) (ndviData : Option NDVIData) :
    RenderState (HealthDistribution × NDVIData) :=
  if healthLoading || ndviLoading then .loading
  else
    match healthError, ndviError, healthDistribution, ndviData with
    | none, none, some h, some n => .content (h, n)
    | _, _, _, _ => .failed

/-- Render gate of the Index (overview) page: `if (error)` shows the failed
panel; the content path reads metrics through optional chaining. -/
def indexRender (isLoading : Bool) (error : Option String)
    (metrics : Option OverviewMetrics) : RenderState (Option OverviewMetrics) :=
  if isLoading then .loading
  else
    match error with
    | some _ => .failed
    | none => .content metrics

/-- Render gate of the Carbon page: `if (error || !carbonData)` shows the
failed panel. -/
def carbonPageRender (isLoading : Bool) (error : Option String)
    (carbonData : Option CarbonData) : RenderState CarbonData :=
  if isLoading then .loading
  else
    match error, carbonData with
    | none, some d => .content d
    | _, _ => .failed

/-! ## Location-selector boundary (`LocationSelector.tsx`) -/

/-- `handleAddNewLocation`: a trimmed search term shorter than 2 characters
returns early with no request; otherwise the trimmed term is sent as the `q`
query parameter of `/api/locations/search`. -/
def handleAddNewLocationRequest (searchTerm : String) : Option String :=
  if (searchTerm.trim).length < 2 then none else some searchTerm.trim

/-! ## Backend synthesizer

The Python backend is not among the inspected sources; the definitions below
are modelled from the specification and are marked as such. -/

/-- Modelled from the spec: the backend's "stable hash-to-range function"
(§4.1) deriving per-location randomness from the location string; the exact
hash is unspecified, so a deterministic polynomial string hash is used. -/
def hashString (s : String) : ℕ :=
  s.data.foldl (fun h c => (h * 31 + c.toNat) % 1000003) 7

/-- Modelled from the spec (§4.1, glossary "Scale factor"): a per-location
deterministic multiplier derived from the location's identity, here in
per-mille (covering a 0.5x–1.5x band as in the city factors of the
success report). -/
def deriveScaleFactor (name : String) : ℕ :=
  500 + hashString name % 1001

/-- Modelled from the spec (§4.2): the base-population constant that the
scale factor multiplies. -/
def basePopulationConstant : ℕ := 20000

/-- The shared location store (spec §5): location name mapped to its committed
scale factor, newest entry first. -/
abbrev Store := List (String × ℕ)

/-- Exact-string-match lookup of a committed scale factor (spec §3: locations
are case-sensitive, unique per distinct string). -/
def lookupFactor : Store → String → Option ℕ
  | [], _ => none
  | (m, f) :: rest, name => if m = name then some f else lookupFactor rest name

/-- Modelled from the spec (§4.1 `getOrCreateLocation`): if the name exists in
the store, return its existing scale factor; otherwise derive one
deterministically from the string and persist it.  Per §5 the whole
check-then-create sequence runs as one atomic step. -/
def getOrCreateLocation (store : Store) (name : String) : ℕ × Store :=
  match lookupFactor store name with
  | some f => (f, store)
  | none => (deriveScaleFactor name, (name, deriveScaleFactor name) :: store)

/-- Run a sequence of `getOrCreateLocation` calls (for arbitrary location
names), returning the final store. -/
def runCalls (store : Store) : List String → Store
  | [] => store
  | n :: ns => runCalls (getOrCreateLocation store n).2 ns

/-- All scale factors ever committed for `name` in the store. -/
def committedFactors (store : Store) (name : String) : List ℕ :=
  (store.filter (fun p => p.1 == name)).map Prod.snd

/-- A synthesized health record (spec §3 LocationRecord / §4.2 HealthSnapshot,
restricted to the fields the claims mention). -/
structure HealthSnapshot where
  tree_count : ℕ
  healthy : ℕ
  moderate : ℕ
  stressed : ℕ
  unhealthy : ℕ
  total : ℕ

/-- Modelled from the spec (§4.2 `synthesizeHealth`): `tree_count` is the
scale factor times the base-population constant; the buckets follow fixed
target ratios perturbed by bounded noise derived from the seed (moderate
20–25%, stressed 10–14%, unhealthy 5–8%, leaving 53–65% healthy, inside the
spec's 45–65% band); the three minor buckets are floored and the rounding
remainder is apportioned into the healthy bucket, as §4.2 requires. -/
def synthesizeHealth (scale seed : ℕ) : HealthSnapshot :=
  let tree_count := scale * basePopulationConstant / 1000
  let moderate := tree_count * (20 + seed % 6) / 100
  let stressed := tree_count * (10 + seed / 6 % 5) / 100
  let unhealthy := tree_count * (5 + seed / 30 % 4) / 100
  { tree_count := tree_count
    healthy := tree_count - (moderate + stressed + unhealthy)
    moderate := moderate
    stressed := stressed
    unhealthy := unhealthy
    total := tree_count }

/-- The record served for `name` at a given time seed: the health snapshot
derived from the location's stored scale factor (spec §3 lifecycle). -/
def recordFor (store : Store) (name : String) (seed : ℕ) : HealthSnapshot :=
  synthesizeHealth (getOrCreateLocation store name).1 seed

/-- Modelled from the spec (§4.3): the per-car CO2-per-year constant; the
frontend uses 4.6 tons/year. -/
def co2PerCarPerYear : ℚ := 23 / 5

/-- Modelled from the spec (§4.3 `synthesizeCarbon`):
`equivalent_cars_offset = annual_capture_rate / co2_per_car_per_year_constant`,
rounded to nearest integer; served as `co2_equivalent_offset` in the carbon
response (§6). -/
def backendCarsOffset (annual_capture_rate : ℚ) : ℤ :=
  jsRound (annual_capture_rate / co2PerCarPerYear)

/-- One point of a synthesized trend series (`date` as a day number). -/
structure TrendPoint where
  date : ℕ
  health_score : ℚ
  carbon_sequestration : ℚ

/-- Linear approach from a baseline toward the current value across `n`
points: point `i` has covered fraction `(i+1)/n` of the gap. -/
def interpToward (base curr : ℚ) (n i : ℕ) : ℚ :=
  base + (curr - base) * ((i + 1 : ℚ) / (n : ℚ))

/-- Modelled from the spec (§4.4 `synthesizeTrend`): an ordered series of
`windowDays` daily points smoothly interpolating from a historical baseline
toward the current snapshot, whose final point equals the current snapshot. -/
def synthesizeTrend (baseHealth currHealth baseCarbon currCarbon : ℚ)
    (startDay windowDays : ℕ) : List TrendPoint :=
  (List.range windowDays).map fun i =>
    { date := startDay + i
      health_score := interpToward baseHealth currHealth windowDays i
      carbon_sequestration := interpToward baseCarbon currCarbon windowDays i }

/-- Modelled from the spec (§7): the location search endpoint rejects only the
empty location string; any other location string is accepted and self-served
through `getOrCreateLocation` (graceful degradation, §4.1 failure: none). -/
def locationSearch (store : Store) (q : String) : Option (ℕ × Store) :=
  if q = "" then none else some (getOrCreateLocation store q)

/-! ## Helper lemmas -/

theorem jsOrNum_some_zero (x : ℚ) : jsOrNum (some x) 0 = x := by
  by_cases h : x = 0 <;> simp [jsOrNum, h]

theorem jsOrNum_some_of_ne {x : ℚ} (d : ℚ) (hx : x ≠ 0) : jsOrNum (some x) d = x := by
  simp [jsOrNum, hx]

theorem jsOrNum_ne_zero (x : Option ℚ) {d : ℚ} (hd : d ≠ 0) : jsOrNum x d ≠ 0 := by
  cases x with
  | none => simp only [jsOrNum]; exact hd
  | some v =>
    by_cases h : v = 0
    · simp only [jsOrNum, if_pos h]; exact hd
    · simp only [jsOrNum, if_neg h]; exact h

theorem jsRound_le (x : ℚ) : (jsRound x : ℚ) ≤ x + 1 / 2 :=
  Int.floor_le _

theorem lt_jsRound (x : ℚ) : x - 1 / 2 < (jsRound x : ℚ) := by
  have h := Int.sub_one_lt_floor (x + 1 / 2)
  unfold jsRound
  linarith

theorem nat_div_add_div_le (a b c : ℕ) : a / c + b / c ≤ (a + b) / c := by
  rcases Nat.eq_zero_or_pos c with hc | hc
  · subst hc; simp
  · rw [Nat.le_div_iff_mul_le hc, Nat.add_mul]
    exact Nat.add_le_add (Nat.div_mul_le_self a c) (Nat.div_mul_le_self b c)

theorem lookupFactor_getOrCreate_self (store : Store) (name : String) :
    lookupFactor (getOrCreateLocation store name).2 name
      = some (getOrCreateLocation store name).1 := by
  unfold getOrCreateLocation
  cases hl : lookupFactor store name with
  | some f => simpa using hl
  | none => simp [lookupFactor]

theorem lookupFactor_preserved {store : Store} {name : String} {f : ℕ}
    (h : lookupFactor store name = some f) (other : String) :
    lookupFactor (getOrCreateLocation store other).2 name = some f := by
  unfold getOrCreateLocation
  cases hl : lookupFactor store other with
  | some g => simpa using h
  | none =>
    simp only [lookupFactor]
    by_cases ho : other = name
    · subst ho; rw [h] at hl; cases hl
    · simpa [ho] using h

theorem lookupFactor_runCalls {store : Store} {name : String} {f : ℕ}
    (h : lookupFactor store name = some f) (ops : List String) :
    lookupFactor (runCalls store ops) name = some f := by
  induction ops generalizing store with
  | nil => exact h
  | cons o os ih => exact ih (lookupFactor_preserved h o)

theorem getOrCreateLocation_fst_of_lookup {store : Store} {name : String} {f : ℕ}
    (h : lookupFactor store name = some f) :
    (getOrCreateLocation store name).1 = f := by
  unfold getOrCreateLocation
  rw [h]

theorem committedFactors_eq_nil {store : Store} {name : String}
    (h : lookupFactor store name = none) : committedFactors store name = [] := by
  induction store with
  | nil => rfl
  | cons p rest ih =>
    obtain ⟨m, f⟩ := p
    by_cases hm : m = name
    · simp [lookupFactor, hm] at h
    · rw [lookupFactor, if_neg hm] at h
      unfold committedFactors at ih ⊢
      rw [List.filter_cons]
      simpa [hm] using ih h

/-! ## Claim theorems -/

/-- C1: for every synthesized health record, the four health buckets are
disjoint and exhaustive: `healthy + moderate + stressed + unhealthy` equals
`total` equals `tree_count` exactly, with no rounding drift (the rounding
remainder of the apportioning lands in the healthy bucket). -/
theorem healthBuckets_partition_treeCount (scale seed : ℕ) :
    (synthesizeHealth scale seed).healthy + (synthesizeHealth scale seed).moderate
        + (synthesizeHealth scale seed).stressed + (synthesizeHealth scale seed).unhealthy
      = (synthesizeHealth scale seed).total
    ∧ (synthesizeHealth scale seed).total = (synthesizeHealth scale seed).tree_count := by
  unfold synthesizeHealth
  dsimp only
  set tc := scale * basePopulationConstant / 1000 with htc
  set m := tc * (20 + seed % 6) / 100 with hmdef
  set s := tc * (10 + seed / 6 % 5) / 100 with hsdef
  set u := tc * (5 + seed / 30 % 4) / 100 with hudef
  have hm : m ≤ tc * 25 / 100 :=
    Nat.div_le_div_right (Nat.mul_le_mul_left tc (by omega))
  have hs : s ≤ tc * 14 / 100 :=
    Nat.div_le_div_right (Nat.mul_le_mul_left tc (by omega))
  have hu : u ≤ tc * 8 / 100 :=
    Nat.div_le_div_right (Nat.mul_le_mul_left tc (by omega))
  have h1 : tc * 25 / 100 + tc * 14 / 100 ≤ (tc * 25 + tc * 14) / 100 :=
    nat_div_add_div_le _ _ _
  have h2 : (tc * 25 + tc * 14) / 100 + tc * 8 / 100 ≤ (tc * 25 + tc * 14 + tc * 8) / 100 :=
    nat_div_add_div_le _ _ _
  have h3 : (tc * 25 + tc * 14 + tc * 8) / 100 ≤ tc := by
    have he : tc * 25 + tc * 14 + tc * 8 = tc * 47 := by ring
    rw [he]
    omega
  refine ⟨?_, rfl⟩
  omega

/-- C2: for every valid non-empty location string, a repeated
`getOrCreateLocation` call on the resulting store returns the identical scale
factor; the factor stays committed across any interleaved calls for other
locations, and every later record for the location is derived from that fixed
scale factor (only the time seed may differ between calls). -/
theorem getOrCreateLocation_idempotent_and_stable (store : Store) (name : String)
    (_hname : name ≠ "") (ops : List String) (seed : ℕ) :
    (getOrCreateLocation (getOrCreateLocation store name).2 name).1
        = (getOrCreateLocation store name).1
    ∧ lookupFactor (runCalls (getOrCreateLocation store name).2 ops) name
        = some (getOrCreateLocation store name).1
    ∧ recordFor (runCalls (getOrCreateLocation store name).2 ops) name seed
        = synthesizeHealth (getOrCreateLocation store name).1 seed := by
  have hself := lookupFactor_getOrCreate_self store name
  have hrun := lookupFactor_runCalls hself ops
  refine ⟨getOrCreateLocation_fst_of_lookup hself, hrun, ?_⟩
  unfold recordFor
  rw [getOrCreateLocation_fst_of_lookup hrun]

/-- Witness for C2 at the concrete location "Nashik" with one interleaved call
for "Pune". -/
theorem getOrCreateLocation_idempotent_and_stable_witness :
    ("Nashik" : String) ≠ ""
    ∧ ((getOrCreateLocation (getOrCreateLocation [] "Nashik").2 "Nashik").1
          = (getOrCreateLocation [] "Nashik").1
        ∧ lookupFactor (runCalls (getOrCreateLocation [] "Nashik").2 ["Pune"]) "Nashik"
            = some (getOrCreateLocation [] "Nashik").1
        ∧ recordFor (runCalls (getOrCreateLocation [] "Nashik").2 ["Pune"]) "Nashik" 0
            = synthesizeHealth (getOrCreateLocation [] "Nashik").1 0) :=
  ⟨by decide, getOrCreateLocation_idempotent_and_stable [] "Nashik" (by decide) ["Pune"] 0⟩

/-- C8: two create-location requests for the same previously unseen name,
each an atomic `getOrCreateLocation` step as §5 requires, commit exactly one
scale factor for the name; both requests return it and every subsequent read
observes that single value. -/
theorem concurrentCreate_commits_single_factor (store : Store) (name : String)
    (h : lookupFactor store name = none) :
    (getOrCreateLocation store name).1 = deriveScaleFactor name
    ∧ (getOrCreateLocation (getOrCreateLocation store name).2 name).1
        = deriveScaleFactor name
    ∧ committedFactors (getOrCreateLocation (getOrCreateLocation store name).2 name).2 name
        = [deriveScaleFactor name]
    ∧ (getOrCreateLocation
          (getOrCreateLocation (getOrCreateLocation store name).2 name).2 name).1
        = deriveScaleFactor name := by
  have h1 : getOrCreateLocation store name
      = (deriveScaleFactor name, (name, deriveScaleFactor name) :: store) := by
    unfold getOrCreateLocation
    rw [h]
  have hlook : lookupFactor ((name, deriveScaleFactor name) :: store) name
      = some (deriveScaleFactor name) := by
    simp [lookupFactor]
  have h2 : getOrCreateLocation ((name, deriveScaleFactor name) :: store) name
      = (deriveScaleFactor name, (name, deriveScaleFactor name) :: store) := by
    unfold getOrCreateLocation
    rw [hlook]
  rw [h1]
  dsimp only
  refine ⟨rfl, ?_, ?_, ?_⟩
  · rw [h2]
  · rw [h2]
    dsimp only
    have hnil : committedFactors store name = [] := committedFactors_eq_nil h
    unfold committedFactors at hnil ⊢
    rw [List.filter_cons]
    simp [hnil]
  · rw [h2]
    dsimp only
    rw [h2]

/-- Witness for C8: an empty store and the unseen name "Kochi". -/
theorem concurrentCreate_commits_single_factor_witness :
    lookupFactor [] "Kochi" = none
    ∧ ((getOrCreateLocation [] "Kochi").1 = deriveScaleFactor "Kochi"
        ∧ (getOrCreateLocation (getOrCreateLocation [] "Kochi").2 "Kochi").1
            = deriveScaleFactor "Kochi"
        ∧ committedFactors (getOrCreateLocation
              (getOrCreateLocation [] "Kochi").2 "Kochi").2 "Kochi"
            = [deriveScaleFactor "Kochi"]
        ∧ (getOrCreateLocation (getOrCreateLocation
              (getOrCreateLocation [] "Kochi").2 "Kochi").2 "Kochi").1
            = deriveScaleFactor "Kochi") :=
  ⟨rfl, concurrentCreate_commits_single_factor [] "Kochi" rfl⟩

/-- C3: for a health-distribution or NDVI response whose buckets partition a
positive total, each of the four percentage fields returned to the caller is
the independently rounded fraction `bucket / total * 100`, and the four
percentages sum to 100 subject to rounding (within the rounding slack of 2). -/
theorem percentages_independently_rounded_sum_to_100 (payload : HealthApiPayload)
    (h m s u t : ℚ)
    (hdist : payload.tree_distribution = some ⟨some h, some m, some s, some u, some t⟩)
    (ht : 0 < t) (hsum : h + m + s + u = t) :
    ((fetchHealthDistributionTransform payload).healthy_percentage = jsRound (h / t * 100)
      ∧ (fetchHealthDistributionTransform payload).moderate_percentage = jsRound (m / t * 100)
      ∧ (fetchHealthDistributionTransform payload).stressed_percentage = jsRound (s / t * 100)
      ∧ (fetchHealthDistributionTransform payload).unhealthy_percentage = jsRound (u / t * 100))
    ∧ ((fetchNDVIDataTransform payload).healthy_percentage = jsRound (h / t * 100)
      ∧ (fetchNDVIDataTransform payload).moderate_percentage = jsRound (m / t * 100)
      ∧ (fetchNDVIDataTransform payload).stressed_percentage = jsRound (s / t * 100)
      ∧ (fetchNDVIDataTransform payload).unhealthy_percentage = jsRound (u / t * 100))
    ∧ |jsRound (h / t * 100) + jsRound (m / t * 100) + jsRound (s / t * 100)
        + jsRound (u / t * 100) - 100| ≤ 2 := by
  have htne : t ≠ 0 := ne_of_gt ht
  have hpct : ∀ b : ℚ, pctOf (some b) (jsOrNum (some t) 1) = jsRound (b / t * 100) := by
    intro b
    unfold pctOf
    rw [jsOrNum_some_of_ne 1 htne, jsOrNum_some_zero]
  have hbound : |jsRound (h / t * 100) + jsRound (m / t * 100) + jsRound (s / t * 100)
      + jsRound (u / t * 100) - 100| ≤ 2 := by
    have e1 := jsRound_le (h / t * 100)
    have e2 := jsRound_le (m / t * 100)
    have e3 := jsRound_le (s / t * 100)
    have e4 := jsRound_le (u / t * 100)
    have f1 := lt_jsRound (h / t * 100)
    have f2 := lt_jsRound (m / t * 100)
    have f3 := lt_jsRound (s / t * 100)
    have f4 := lt_jsRound (u / t * 100)
    have hx : h / t * 100 + m / t * 100 + s / t * 100 + u / t * 100 = 100 := by
      field_simp
      linarith
    have hub : (jsRound (h / t * 100) + jsRound (m / t * 100) + jsRound (s / t * 100)
        + jsRound (u / t * 100) : ℚ) ≤ 102 := by linarith
    have hlb : (98 : ℚ) < jsRound (h / t * 100) + jsRound (m / t * 100)
        + jsRound (s / t * 100) + jsRound (u / t * 100) := by linarith
    have hub2 : jsRound (h / t * 100) + jsRound (m / t * 100) + jsRound (s / t * 100)
        + jsRound (u / t * 100) ≤ 102 := by exact_mod_cast hub
    have hlb2 : (98 : ℤ) < jsRound (h / t * 100) + jsRound (m / t * 100)
        + jsRound (s / t * 100) + jsRound (u / t * 100) := by exact_mod_cast hlb
    rw [abs_le]
    omega
  refine ⟨⟨?_, ?_, ?_, ?_⟩, ⟨?_, ?_, ?_, ?_⟩, hbound⟩ <;>
    simp only [fetchHealthDistributionTransform, fetchNDVIDataTransform, distOf, hdist,
      Option.getD_some, hpct]

/-- Witness for C3: buckets 1, 1, 3, 3 over total 8. -/
theorem percentages_independently_rounded_sum_to_100_witness :
    (HealthApiPayload.mk none (some ⟨some 1, some 1, some 3, some 3, some 8⟩)
          none none).tree_distribution
        = some ⟨some 1, some 1, some 3, some 3, some 8⟩
    ∧ (0 : ℚ) < 8 ∧ (1 : ℚ) + 1 + 3 + 3 = 8
    ∧ |jsRound ((1 : ℚ) / 8 * 100) + jsRound ((1 : ℚ) / 8 * 100)
        + jsRound ((3 : ℚ) / 8 * 100) + jsRound ((3 : ℚ) / 8 * 100) - 100| ≤ 2 :=
  ⟨rfl, by norm_num, by norm_num,
    (percentages_independently_rounded_sum_to_100
      (HealthApiPayload.mk none (some ⟨some 1, some 1, some 3, some 3, some 8⟩) none none)
      1 1 3 3 8 rfl (by norm_num) (by norm_num)).2.2⟩

/-- C10: in `fetchHealthDistribution` and `fetchNDVIData` the percentage
divisor falls back to 1 whenever the payload's `tree_distribution.total` is
missing or zero, and is never zero for any payload, so every percentage field
is a rounded quotient by a nonzero divisor. -/
theorem healthDivisor_fallback_and_never_zero (data : HealthApiPayload) :
    ((distOf data.tree_distribution).total = none
        ∨ (distOf data.tree_distribution).total = some 0 →
      healthDivisor data.tree_distribution = 1)
    ∧ healthDivisor data.tree_distribution ≠ 0
    ∧ (fetchHealthDistributionTransform data).total = healthDivisor data.tree_distribution
    ∧ (fetchHealthDistributionTransform data).healthy_percentage
        = pctOf (distOf data.tree_distribution).healthy (healthDivisor data.tree_distribution)
    ∧ (fetchNDVIDataTransform data).healthy_percentage
        = pctOf (distOf data.tree_distribution).healthy (healthDivisor data.tree_distribution) := by
  refine ⟨?_, jsOrNum_ne_zero _ one_ne_zero, rfl, rfl, rfl⟩
  intro hc
  rcases hc with hc | hc <;> simp [healthDivisor, jsOrNum, hc]

/-- Witness for C10: the fully empty (malformed) payload. -/
theorem healthDivisor_fallback_and_never_zero_witness :
    (distOf (HealthApiPayload.mk none none none none).tree_distribution).total = none
    ∧ healthDivisor (HealthApiPayload.mk none none none none).tree_distribution = 1 :=
  ⟨rfl,
    (healthDivisor_fallback_and_never_zero
      (HealthApiPayload.mk none none none none)).1 (Or.inl rfl)⟩

/-- C4: when a fetch has failed (the fetcher threw on a non-ok response or a
network error, so the query carries an error), the health chart, the health
page, the overview page and the carbon page each render the static
failed-to-load state rather than any content derived from a partial or
missing payload; a missing payload is likewise gated to the failed state. -/
theorem fetchFailure_renders_failed_state (e : String) (otherError : Option String)
    (hd : Option HealthDistribution) (nd : Option NDVIData)
    (m : Option OverviewMetrics) (cd : Option CarbonData) :
    healthChartRender false (some e) hd = .failed
    ∧ healthChartRender false none none = .failed
    ∧ healthPageRender false false (some e) otherError hd nd = .failed
    ∧ healthPageRender false false otherError (some e) hd nd = .failed
    ∧ indexRender false (some e) m = .failed
    ∧ carbonPageRender false (some e) cd = .failed := by
  refine ⟨?_, rfl, ?_, ?_, rfl, ?_⟩
  · cases hd <;> rfl
  · cases otherError <;> cases hd <;> cases nd <;> rfl
  · cases otherError <;> cases hd <;> cases nd <;> rfl
  · cases cd <;> rfl

/-- C5: a trend series over a window of `N` days has exactly `N` points,
chronologically ordered with non-decreasing dates, and its final point equals
the current snapshot; the frontend transform preserves this length when
mapping the trends array into `weeks`, `tree_counts` and `carbon_capture`. -/
theorem trendSeries_length_order_final (baseHealth currHealth baseCarbon currCarbon : ℚ)
    (startDay N : ℕ) (hN : 0 < N) (trends : List TrendItem) :
    (synthesizeTrend baseHealth currHealth baseCarbon currCarbon startDay N).length = N
    ∧ ((synthesizeTrend baseHealth currHealth baseCarbon currCarbon startDay N).map
        TrendPoint.date).Pairwise (· ≤ ·)
    ∧ (synthesizeTrend baseHealth currHealth baseCarbon currCarbon startDay N).getLast?
        = some ⟨startDay + (N - 1), currHealth, currCarbon⟩
    ∧ (fetchTrendDataTransform trends).weeks.length = trends.length
    ∧ (fetchTrendDataTransform trends).tree_counts.length = trends.length
    ∧ (fetchTrendDataTransform trends).carbon_capture.length = trends.length := by
  refine ⟨?_, ?_, ?_, ?_, ?_, ?_⟩
  · simp [synthesizeTrend]
  · unfold synthesizeTrend
    rw [List.map_map]
    refine List.Pairwise.map _ (fun a b hab => ?_) (List.pairwise_lt_range N)
    show startDay + a ≤ startDay + b
    omega
  · unfold synthesizeTrend
    rw [List.getLast?_eq_getElem?]
    have hlt : N - 1 < N := by omega
    simp only [List.length_map, List.length_range, List.getElem?_map,
      List.getElem?_range hlt, Option.map_some']
    have hone : (((N - 1 : ℕ) : ℚ) + 1) / (N : ℚ) = 1 := by
      have h1 : (1 : ℕ) ≤ N := hN
      have hN0 : (N : ℚ) ≠ 0 := Nat.cast_ne_zero.mpr hN.ne'
      rw [Nat.cast_sub h1]
      field_simp
    unfold interpToward
    rw [hone]
    simp only [mul_one, Option.some_inj, TrendPoint.mk.injEq]
    exact ⟨trivial, by ring, by ring⟩
  · simp [fetchTrendDataTransform]
  · simp [fetchTrendDataTransform]
  · simp [fetchTrendDataTransform]

/-- Witness for C5: a 3-day window from health 40 to 70 and carbon 0 to 9. -/
theorem trendSeries_length_order_final_witness :
    0 < 3
    ∧ ((synthesizeTrend 40 70 0 9 100 3).length = 3
        ∧ ((synthesizeTrend 40 70 0 9 100 3).map TrendPoint.date).Pairwise (· ≤ ·)
        ∧ (synthesizeTrend 40 70 0 9 100 3).getLast? = some ⟨100 + (3 - 1), 70, 9⟩
        ∧ (fetchTrendDataTransform []).weeks.length = ([] : List TrendItem).length
        ∧ (fetchTrendDataTransform []).tree_counts.length = ([] : List TrendItem).length
        ∧ (fetchTrendDataTransform []).carbon_capture.length = ([] : List TrendItem).length) :=
  ⟨by decide, trendSeries_length_order_final 40 70 0 9 100 3 (by decide) []⟩

/-- C6 (code defect): with the backend's `co2_equivalent_offset` computed per
the spec as round(annual / 4.6), an annual capture rate of 46 tons gives the
offset 10 cars, yet `fetchCarbonData` divides that already-converted offset
by 4.6 once more and presents round(10 / 4.6) = 2 cars instead of 10. -/
theorem carsOffset_division_applied_twice :
    backendCarsOffset 46 = 10
    ∧ (fetchCarbonDataTransform
          (CarbonApiPayload.mk (some 46) (some 10) none "Seattle")).equivalent_cars_offset = 2
    ∧ (2 : ℤ) ≠ 10 := by
  refine ⟨?_, ?_, by decide⟩
  · unfold backendCarsOffset co2PerCarPerYear
    rw [jsRound, Int.floor_eq_iff]
    norm_num
  · unfold fetchCarbonDataTransform
    dsimp only
    rw [jsOrNum_some_of_ne 0 (by norm_num)]
    rw [jsRound, Int.floor_eq_iff]
    norm_num

/-- C7: the add-new-location boundary rejects a trimmed search term shorter
than 2 characters without issuing any request to the synthesizer, and for a
trimmed term of at least 2 characters it always issues the request with the
trimmed term, which the synthesizer accepts (it never fails on a well-formed
non-empty string). -/
theorem addNewLocation_boundary (searchTerm : String) (store : Store) :
    ((searchTerm.trim).length < 2 → handleAddNewLocationRequest searchTerm = none)
    ∧ (2 ≤ (searchTerm.trim).length →
        handleAddNewLocationRequest searchTerm = some searchTerm.trim
        ∧ locationSearch store searchTerm.trim
            = some (getOrCreateLocation store searchTerm.trim)) := by
  constructor
  · intro hlt
    unfold handleAddNewLocationRequest
    rw [if_pos hlt]
  · intro hge
    have hne : searchTerm.trim ≠ "" := by
      intro hc
      rw [hc] at hge
      exact absurd hge (by decide)
    constructor
    · unfold handleAddNewLocationRequest
      rw [if_neg (by omega)]
    · unfold locationSearch
      rw [if_neg hne]

/-- Evaluation fact: trimming the one-character input "a" leaves "a". -/
theorem trim_eval_a : "a".trim = "a" := by
  show ("a".toSubstring.trim).toString = "a"
  rw [Substring.trim]
  rw [Substring.takeWhileAux]
  norm_num [String.get]
  rw [Substring.takeRightWhileAux]
  norm_num [String.get, String.prev]
  decide

/-- Evaluation fact: trimming the input "Pune" leaves "Pune". -/
theorem trim_eval_pune : "Pune".trim = "Pune" := by
  show ("Pune".toSubstring.trim).toString = "Pune"
  rw [Substring.trim]
  rw [Substring.takeWhileAux]
  norm_num [String.get]
  rw [Substring.takeRightWhileAux]
  norm_num [String.get, String.prev]
  decide

/-- Witness for C7: the one-character term "a" is rejected with no request;
the term "Pune" is requested and accepted against the empty store. -/
theorem addNewLocation_boundary_witness :
    (("a".trim).length < 2 ∧ handleAddNewLocationRequest "a" = none)
    ∧ (2 ≤ ("Pune".trim).length
        ∧ handleAddNewLocationRequest "Pune" = some "Pune".trim
        ∧ locationSearch [] "Pune".trim = some (getOrCreateLocation [] "Pune".trim)) := by
  have h1 : ("a".trim).length < 2 := by rw [trim_eval_a]; decide
  have h2 : 2 ≤ ("Pune".trim).length := by rw [trim_eval_pune]; decide
  exact ⟨⟨h1, (addNewLocation_boundary "a" []).1 h1⟩,
    ⟨h2, (addNewLocation_boundary "Pune" []).2 h2⟩⟩

/-- C9: with no selected location or the literal string 'all', the overview
and health-distribution fetchers request the fixed location Seattle rather
than an aggregate, and the NDVI, carbon and trend fetchers request Seattle
regardless of the selected location. -/
theorem fetchers_default_to_seattle (loc : Option String)
    (h : loc = none ∨ loc = some "all") :
    overviewRequestLocation loc = "Seattle"
    ∧ healthRequestLocation loc = "Seattle"
    ∧ ndviRequestLocation = "Seattle"
    ∧ carbonRequestLocation = "Seattle"
    ∧ trendRequestLocation = "Seattle" := by
  rcases h with h | h <;> subst h <;>
    refine ⟨?_, ?_, rfl, rfl, rfl⟩ <;>
    simp [overviewRequestLocation, healthRequestLocation, targetLocationOrSeattle]

/-- Witness for C9 at the selected location 'all'. -/
theorem fetchers_default_to_seattle_witness :
    ((some "all" : Option String) = none ∨ (some "all" : Option String) = some "all")
    ∧ (overviewRequestLocation (some "all") = "Seattle"
        ∧ healthRequestLocation (some "all") = "Seattle"
        ∧ ndviRequestLocation = "Seattle"
        ∧ carbonRequestLocation = "Seattle"
        ∧ trendRequestLocation = "Seattle") :=
  ⟨Or.inr rfl, fetchers_default_to_seattle (some "all") (Or.inr rfl)⟩

end EcoMind
